import Mathlib

/-!
# Transaction adapter of `internal/xsql/tx.go`

A shallow embedding of the `tx` type of package `xsql` and of its four
operations `Commit`, `Rollback`, `QueryContext` and `ExecContext`.

The adapter is stateful and talks to collaborators that live outside the file:

* the owning connection (`conn`), of which the file reads `isClosed()`,
  calls `checkClosed(err)` and writes the slot `conn.tx`;
* the native transaction handle (`table.Transaction`), whose three methods
  `CommitTx`, `Rollback` and `Execute` are remote calls;
* the helpers `toQueryParams`, `queryWithDeclares`, `dataQueryOptions`,
  `retry.IsIdempotent`, and the tracing hooks of package `trace`.

The embedding passes the state explicitly (`World`).  Every native call is
appended to a log, so that "no native call" and "exactly one native call" are
statements about that log.  The native handle is a deterministic oracle that
maps the history of calls and the current call to an `Outcome`; an outcome may
say that the connection was closed while the call was in flight, which is how
a concurrent `Close` is sequentialised.

The start hooks of package `trace` are handed a pointer to a context
(`&tx.ctx` in `Commit` and `Rollback`, `&ctx` in `QueryContext` and
`ExecContext`), and the native call reads that context afterwards.  A hook is
therefore a function that may write a new context through the pointer; the
context a native call gets is the one the hook has left.
-/

namespace Xsql

/-! ## Data model -/

/-- Go `error` values that the adapter can see.  A Go `error` that may be `nil`
is an `Option Error`. -/
inductive Error where
  /-- The package-level value `errClosedConn`. -/
  | closedConn : Error
  /-- An error produced by the native layer, identified by a code. -/
  | native (code : Nat) : Error
  /-- The wrapper that `xerrors.WithStackTrace` puts around an error. -/
  | stackTrace (inner : Error) : Error
  deriving DecidableEq, Repr

/-- A `context.Context`, identified by a number. -/
structure Context where
  id : Nat
  deriving DecidableEq, Repr

/-- One `driver.NamedValue` of the argument list. -/
structure NamedValue where
  name : String
  ordinal : Nat
  value : Int
  deriving DecidableEq, Repr

/-- The native parameter set `*table.QueryParameters`: named, typed values. -/
abbrev QueryParameters := List (String × Int)

/-- One `options.ExecuteDataQueryOption`, identified by a number. -/
abbrev QueryOption := Nat

/-- The native `result.Result`: an identity and what its `Err()` returns. -/
structure Result where
  id : Nat
  err : Option Error
  deriving DecidableEq, Repr

/-- The type `rows` of the package: the wrapper around a native result. -/
structure Rows where
  result : Result
  deriving DecidableEq, Repr

/-- The type `nopResult` of the package: a `driver.Result` without content. -/
inductive NopResult where
  | mk : NopResult
  deriving DecidableEq, Repr

/-- A call on the native transaction handle, with its arguments. -/
inductive NativeCall where
  | commitTx (ctx : Context) : NativeCall
  | rollback (ctx : Context) : NativeCall
  | execute (ctx : Context) (query : String) (params : QueryParameters)
      (opts : List QueryOption) : NativeCall
  deriving DecidableEq, Repr

/-- What a native call does: the transport error it returns (`none` is `nil`),
the result it returns (read only when there is no transport error), and whether
the connection was closed by someone else while the call was in flight. -/
structure Outcome where
  err : Option Error
  res : Result
  closes : Bool
  deriving DecidableEq, Repr

/-- The native handle `table.Transaction`: its identifier and its behaviour, a
function of the calls made so far and of the current call. -/
structure Transaction where
  id : String
  behave : List NativeCall → NativeCall → Outcome

/-- An event seen by the tracing hooks of package `trace`: what a start hook is
shown (the context behind the pointer it is handed first), and the error a done
hook is given. -/
inductive TraceEvent where
  | commitStart (txCtx : Context) (txID : String) : TraceEvent
  | commitDone (err : Option Error) : TraceEvent
  | rollbackStart (txCtx : Context) (txID : String) : TraceEvent
  | rollbackDone (err : Option Error) : TraceEvent
  | queryStart (ctx txCtx : Context) (txID : String) (query : String)
      (idempotent : Bool) : TraceEvent
  | queryDone (err : Option Error) : TraceEvent
  | execStart (ctx txCtx : Context) (txID : String) (query : String)
      (idempotent : Bool) : TraceEvent
  | execDone (err : Option Error) : TraceEvent
  deriving DecidableEq, Repr

/-- The tracer `*trace.DatabaseSQL` behind `tx.conn.trace`: its four start hooks.
Each is given the events so far and what the Go hook is shown, the first
context being the one behind the pointer `*context.Context`; it answers `none`
when it leaves that context as it is, and `some c` when it writes `c` through
the pointer. -/
structure DatabaseSQL where
  onTxCommit : List TraceEvent → Context → String → Option Context
  onTxRollback : List TraceEvent → Context → String → Option Context
  onTxQuery : List TraceEvent → Context → Context → String → String → Bool → Option Context
  onTxExec : List TraceEvent → Context → Context → String → String → Bool → Option Context

/-- The fields of `conn` that `tx.go` touches: the closed flag behind
`isClosed()`, the slot `conn.tx` (`none` is `nil`, `some p` a pointer) and the
tracer `conn.trace`. -/
structure Conn where
  closed : Bool
  tx : Option Nat
  trace : DatabaseSQL

/-- The state an operation runs in: the connection, the log of native calls
(oldest first) and the log of tracing events (oldest first). -/
structure World where
  conn : Conn
  calls : List NativeCall
  events : List TraceEvent

/-- The struct `tx`: the stored context `tx.ctx` and the native handle `tx.tx`.
The field `tx.conn` is the connection of the `World`. -/
structure Tx where
  ctx : Context
  tx : Transaction

/-- The package-level helpers used by `QueryContext` and `ExecContext` whose
bodies are in other files: they are parameters of the embedding. -/
structure Helpers where
  toQueryParams : List NamedValue → QueryParameters
  queryWithDeclares : String → QueryParameters → String
  dataQueryOptions : Context → List QueryOption
  isIdempotent : Context → Bool

/-! ## Collaborators -/

/-- The method `conn.isClosed()`: reads the closed flag. -/
def Conn.isClosed (c : Conn) : Bool := c.closed

/-- Modelled from the spec: `conn.checkClosed(err)`, whose body is in `conn.go`.
The spec gives it as: "reclassifies an arbitrary error as a closed-connection
error if the connection has since closed, otherwise returns it unchanged". -/
def Conn.checkClosed (c : Conn) (err : Error) : Option Error :=
  if c.isClosed then some Error.closedConn else some err

/-- Modelled from the spec: `xerrors.WithStackTrace(err)` on a non-nil error,
whose body is in package `xerrors`.  The spec gives it as the native error
"annotated with call-site context for diagnostics". -/
def WithStackTrace (err : Error) : Error := Error.stackTrace err

/-- Modelled from the spec: `toQueryParams`, whose body is not in `tx.go`.  The
spec gives it as a "pure function converting a caller's named-value argument
list into the native parameter mapping". -/
def toQueryParams (args : List NamedValue) : QueryParameters :=
  args.map (fun a => (a.name, a.value))

/-- Modelled from the spec: `queryWithDeclares`, whose body is not in `tx.go`.
The spec gives it as a "pure function that rewrites query text to declare
parameter types inline", the query being augmented "with declarations derived
from the parameter set": one declaration for each parameter of the set, put in
front of the query text.  The wording of one declaration is not in the spec and
is the argument `declare`. -/
def queryWithDeclares (declare : String → Int → String) (query : String)
    (params : QueryParameters) : String :=
  String.join (params.map (fun p => declare p.1 p.2)) ++ query

/-- The helpers as the spec describes them, for any wording of a declaration,
any choice of query options and any idempotency hint. -/
def specHelpers (declare : String → Int → String) (opts : Context → List QueryOption)
    (idem : Context → Bool) : Helpers :=
  { toQueryParams := toQueryParams,
    queryWithDeclares := queryWithDeclares declare,
    dataQueryOptions := opts,
    isIdempotent := idem }

/-- A tracing hook has run: the event is appended to the log of events. -/
def World.emit (w : World) (e : TraceEvent) : World :=
  { w with events := w.events ++ [e] }

/-- A call on the native handle: the oracle is asked for the outcome, the call
is logged, and the connection becomes closed if the outcome says that it was
closed during the call. -/
def World.invoke (w : World) (h : Transaction) (c : NativeCall) : Outcome × World :=
  let out := h.behave w.calls c
  (out, { w with conn := { w.conn with closed := w.conn.closed || out.closes },
                 calls := w.calls ++ [c] })

/-- The deferred function of `Commit` and `Rollback`: `tx.conn.tx = nil`. -/
def World.clearTx (w : World) : World :=
  { w with conn := { w.conn with tx := none } }

/-! ## Operations -/

/-- The method `(*tx).ID`. -/
def Tx.ID (t : Tx) : String := t.tx.id

/-- The value of `tx.ctx` once `trace.DatabaseSQLOnTxCommit(tx.conn.trace,
&tx.ctx, tx)` has returned: what the hook wrote, or the stored context. -/
def Tx.commitCtx (t : Tx) (w : World) : Context :=
  (w.conn.trace.onTxCommit w.events t.ctx t.ID).getD t.ctx

/-- The value of `tx.ctx` once `trace.DatabaseSQLOnTxRollback(tx.conn.trace,
&tx.ctx, tx)` has returned. -/
def Tx.rollbackCtx (t : Tx) (w : World) : Context :=
  (w.conn.trace.onTxRollback w.events t.ctx t.ID).getD t.ctx

/-- The value of the variable `ctx` of `QueryContext` once
`trace.DatabaseSQLOnTxQuery(tx.conn.trace, &ctx, tx.ctx, tx, query,
retry.IsIdempotent(ctx))` has returned. -/
def Tx.queryCtx (hp : Helpers) (t : Tx) (ctx : Context) (query : String) (w : World) :
    Context :=
  (w.conn.trace.onTxQuery w.events ctx t.ctx t.ID query (hp.isIdempotent ctx)).getD ctx

/-- The value of the variable `ctx` of `ExecContext` once
`trace.DatabaseSQLOnTxExec(tx.conn.trace, &ctx, tx.ctx, tx, query,
retry.IsIdempotent(ctx))` has returned. -/
def Tx.execCtx (hp : Helpers) (t : Tx) (ctx : Context) (query : String) (w : World) :
    Context :=
  (w.conn.trace.onTxExec w.events ctx t.ctx t.ID query (hp.isIdempotent ctx)).getD ctx

/-- The method `(*tx).Commit`: the error (`none` is `nil`), the state afterwards
and the transaction afterwards (the start hook may have written `tx.ctx`).  The
deferred functions run in reverse order of registration: first
`tx.conn.tx = nil` (registered after the closed check), then `onDone(err)`. -/
def Tx.Commit (t : Tx) (w : World) : Option Error × World × Tx :=
  let t1 : Tx := { t with ctx := t.commitCtx w }
  let w0 := w.emit (TraceEvent.commitStart t.ctx t.ID)
  if w0.conn.isClosed then
    (some Error.closedConn, w0.emit (TraceEvent.commitDone (some Error.closedConn)), t1)
  else
    let r := w0.invoke t1.tx (NativeCall.commitTx t1.ctx)
    let err : Option Error :=
      match r.1.err with
      | some e => r.2.conn.checkClosed (WithStackTrace e)
      | none => none
    (err, (r.2.clearTx).emit (TraceEvent.commitDone err), t1)

/-- The method `(*tx).Rollback`: the error, the state afterwards and the
transaction afterwards. -/
def Tx.Rollback (t : Tx) (w : World) : Option Error × World × Tx :=
  let t1 : Tx := { t with ctx := t.rollbackCtx w }
  let w0 := w.emit (TraceEvent.rollbackStart t.ctx t.ID)
  if w0.conn.isClosed then
    (some Error.closedConn, w0.emit (TraceEvent.rollbackDone (some Error.closedConn)), t1)
  else if w0.conn.tx = none then
    (none, (w0.clearTx).emit (TraceEvent.rollbackDone none), t1)
  else
    let r := w0.invoke t1.tx (NativeCall.rollback t1.ctx)
    let err : Option Error :=
      match r.1.err with
      | some e => r.2.conn.checkClosed e
      | none => none
    (err, (r.2.clearTx).emit (TraceEvent.rollbackDone err), t1)

/-- The method `(*tx).QueryContext`: the rows (`none` is `nil`), the error, and
the state afterwards.  The variable `ctx` is read after the start hook ran. -/
def Tx.QueryContext (hp : Helpers) (t : Tx) (ctx : Context) (query : String)
    (args : List NamedValue) (w : World) : Option Rows × Option Error × World :=
  let ctx1 := t.queryCtx hp ctx query w
  let w0 := w.emit (TraceEvent.queryStart ctx t.ctx t.ID query (hp.isIdempotent ctx))
  let params := hp.toQueryParams args
  let r := w0.invoke t.tx
    (NativeCall.execute ctx1 (hp.queryWithDeclares query params) params
      (hp.dataQueryOptions ctx1))
  match r.1.err with
  | some e =>
    let err := r.2.conn.checkClosed (WithStackTrace e)
    (none, err, r.2.emit (TraceEvent.queryDone err))
  | none =>
    match r.1.res.err with
    | some e =>
      let err := r.2.conn.checkClosed (WithStackTrace e)
      (none, err, r.2.emit (TraceEvent.queryDone err))
    | none => (some { result := r.1.res }, none, r.2.emit (TraceEvent.queryDone none))

/-- The method `(*tx).ExecContext`: the driver result (`none` is `nil`), the
error, and the state afterwards.  The native result is dropped. -/
def Tx.ExecContext (hp : Helpers) (t : Tx) (ctx : Context) (query : String)
    (args : List NamedValue) (w : World) : Option NopResult × Option Error × World :=
  let ctx1 := t.execCtx hp ctx query w
  let w0 := w.emit (TraceEvent.execStart ctx t.ctx t.ID query (hp.isIdempotent ctx))
  let params := hp.toQueryParams args
  let r := w0.invoke t.tx
    (NativeCall.execute ctx1 (hp.queryWithDeclares query params) params
      (hp.dataQueryOptions ctx1))
  match r.1.err with
  | some e =>
    let err := r.2.conn.checkClosed (WithStackTrace e)
    (none, err, r.2.emit (TraceEvent.execDone err))
  | none => (some NopResult.mk, none, r.2.emit (TraceEvent.execDone none))

/-! ## Concrete inputs -/

/-- A native handle on which every call succeeds and the connection stays open. -/
def okHandle : Transaction :=
  { id := "tx-1",
    behave := fun _ _ => { err := none, res := { id := 0, err := none }, closes := false } }

/-- A native handle on which every call fails with native error 7 while the
connection stays open. -/
def failHandle : Transaction :=
  { id := "tx-2",
    behave := fun _ _ =>
      { err := some (Error.native 7), res := { id := 0, err := none }, closes := false } }

/-- A native handle on which every call fails with native error 7 and the
connection is closed while the call is in flight. -/
def closingHandle : Transaction :=
  { id := "tx-3",
    behave := fun _ _ =>
      { err := some (Error.native 7), res := { id := 0, err := none }, closes := true } }

/-- A native handle whose calls return without a transport error, with a result
whose `Err()` is native error 9. -/
def resErrHandle : Transaction :=
  { id := "tx-4",
    behave := fun _ _ =>
      { err := none, res := { id := 5, err := some (Error.native 9) }, closes := false } }

/-- A tracer whose hooks leave every context as it is. -/
def observer : DatabaseSQL :=
  { onTxCommit := fun _ _ _ => none,
    onTxRollback := fun _ _ _ => none,
    onTxQuery := fun _ _ _ _ _ _ => none,
    onTxExec := fun _ _ _ _ _ _ => none }

/-- An open connection whose slot points at a transaction. -/
def openWorld : World :=
  { conn := { closed := false, tx := some 1, trace := observer }, calls := [], events := [] }

/-- A closed connection whose slot still points at a transaction. -/
def closedWorld : World :=
  { conn := { closed := true, tx := some 1, trace := observer }, calls := [], events := [] }

/-- An open connection whose slot is empty. -/
def clearedWorld : World :=
  { conn := { closed := false, tx := none, trace := observer }, calls := [], events := [] }

/-- The stored context of the sample transactions. -/
def txCtx : Context := { id := 1 }

/-- The context a caller passes to `QueryContext` or `ExecContext`. -/
def callCtx : Context := { id := 2 }

/-- Helpers for the concrete inputs: the helpers as the spec describes them,
with one line per declaration and without options. -/
def sampleHelpers : Helpers :=
  specHelpers (fun name _ => "DECLARE $" ++ name ++ ";\n") (fun _ => []) (fun _ => false)

/-- The argument list that binds `p1` to 42. -/
def sampleArgs : List NamedValue := [{ name := "p1", ordinal := 1, value := 42 }]

/-- The sample query. -/
def sampleQuery : String := "SELECT * FROM t WHERE id = $p1"

/-! ## Basic facts about the state helpers -/

@[simp]
theorem emit_conn (w : World) (e : TraceEvent) : (w.emit e).conn = w.conn := rfl

@[simp]
theorem emit_calls (w : World) (e : TraceEvent) : (w.emit e).calls = w.calls := rfl

@[simp]
theorem clearTx_calls (w : World) : (w.clearTx).calls = w.calls := rfl

@[simp]
theorem clearTx_tx (w : World) : (w.clearTx).conn.tx = none := rfl

@[simp]
theorem clearTx_closed (w : World) : (w.clearTx).conn.closed = w.conn.closed := rfl

@[simp]
theorem invoke_out (w : World) (h : Transaction) (c : NativeCall) :
    (w.invoke h c).1 = h.behave w.calls c := rfl

@[simp]
theorem invoke_calls (w : World) (h : Transaction) (c : NativeCall) :
    (w.invoke h c).2.calls = w.calls ++ [c] := rfl

@[simp]
theorem invoke_closed (w : World) (h : Transaction) (c : NativeCall) :
    (w.invoke h c).2.conn.closed = (w.conn.closed || (h.behave w.calls c).closes) := rfl

@[simp]
theorem invoke_tx (w : World) (h : Transaction) (c : NativeCall) :
    (w.invoke h c).2.conn.tx = w.conn.tx := rfl

/-- A commit hook that writes nothing leaves the stored context. -/
theorem commitCtx_of_none (t : Tx) (w : World)
    (h : w.conn.trace.onTxCommit w.events t.ctx t.ID = none) : t.commitCtx w = t.ctx := by
  simp [Tx.commitCtx, h]

/-- A rollback hook that writes nothing leaves the stored context. -/
theorem rollbackCtx_of_none (t : Tx) (w : World)
    (h : w.conn.trace.onTxRollback w.events t.ctx t.ID = none) : t.rollbackCtx w = t.ctx := by
  simp [Tx.rollbackCtx, h]

/-- The transaction after `Commit` stores the context the start hook left. -/
theorem commit_stored_ctx (t : Tx) (w : World) :
    (t.Commit w).2.2.ctx = t.commitCtx w ∧ (t.Commit w).2.2.tx = t.tx := by
  unfold Tx.Commit
  by_cases hc : w.conn.isClosed = true <;> simp [hc]

/-- The transaction after `Rollback` stores the context the start hook left. -/
theorem rollback_stored_ctx (t : Tx) (w : World) :
    (t.Rollback w).2.2.ctx = t.rollbackCtx w ∧ (t.Rollback w).2.2.tx = t.tx := by
  unfold Tx.Rollback
  by_cases hc : w.conn.isClosed = true
  · simp [hc]
  · by_cases ht : w.conn.tx = none <;> simp [hc, ht]

/-! ## Claims -/

/-- C1: when the owning connection reports closed at the moment of the call,
both `Commit` and `Rollback` return exactly `errClosedConn` and make no native
call: the log of native calls is the one from before the call. -/
theorem closed_conn_short_circuit (t : Tx) (w : World) (h : w.conn.isClosed = true) :
    (t.Commit w).1 = some Error.closedConn ∧ (t.Commit w).2.1.calls = w.calls ∧
    (t.Rollback w).1 = some Error.closedConn ∧ (t.Rollback w).2.1.calls = w.calls := by
  simp [Tx.Commit, Tx.Rollback, h]

theorem closed_conn_short_circuit_witness :
    closedWorld.conn.isClosed = true ∧
    ((Tx.mk txCtx okHandle).Commit closedWorld).1 = some Error.closedConn ∧
    ((Tx.mk txCtx okHandle).Commit closedWorld).2.1.calls = closedWorld.calls ∧
    ((Tx.mk txCtx okHandle).Rollback closedWorld).1 = some Error.closedConn ∧
    ((Tx.mk txCtx okHandle).Rollback closedWorld).2.1.calls = closedWorld.calls :=
  ⟨rfl, closed_conn_short_circuit (Tx.mk txCtx okHandle) closedWorld rfl⟩

/-- C2, as stated, fails: on a connection that is closed at entry and whose slot
is set, `Commit` and `Rollback` return through the closed check, before the
clearing function is registered, and the slot is still set afterwards. -/
theorem closed_conn_keeps_tx_reference :
    ((Tx.mk txCtx okHandle).Commit closedWorld).2.1.conn.tx = some 1 ∧
    ((Tx.mk txCtx okHandle).Rollback closedWorld).2.1.conn.tx = some 1 := by
  constructor <;> rfl

/-- C2, amended: for every starting state and every outcome of the native call,
after `Commit` or `Rollback` returns the slot `conn.tx` is `nil` when the
connection was open at entry, and is what it was when the connection was
closed at entry. -/
theorem tx_reference_after_finish (t : Tx) (w : World) :
    (t.Commit w).2.1.conn.tx = (if w.conn.isClosed then w.conn.tx else none) ∧
    (t.Rollback w).2.1.conn.tx = (if w.conn.isClosed then w.conn.tx else none) := by
  constructor
  · unfold Tx.Commit
    by_cases hc : w.conn.isClosed = true <;> simp [hc]
  · unfold Tx.Rollback
    by_cases hc : w.conn.isClosed = true
    · simp [hc]
    · by_cases ht : w.conn.tx = none <;> simp [hc, ht]

/-- C3: on an open connection whose slot is already `nil`, `Rollback` returns
`nil`, makes no native call and leaves the slot `nil`; this is the state a
preceding `Commit` leaves behind when the connection is still open after it. -/
theorem rollback_noop_on_cleared (t : Tx) (w : World)
    (hopen : w.conn.isClosed = false) (hnil : w.conn.tx = none) :
    (t.Rollback w).1 = none ∧ (t.Rollback w).2.1.calls = w.calls ∧
    (t.Rollback w).2.1.conn.tx = none := by
  simp [Tx.Rollback, hopen, hnil]

theorem rollback_noop_on_cleared_witness :
    ((Tx.mk txCtx okHandle).Commit openWorld).2.1.conn.isClosed = false ∧
    ((Tx.mk txCtx okHandle).Commit openWorld).2.1.conn.tx = none ∧
    ((Tx.mk txCtx failHandle).Rollback ((Tx.mk txCtx okHandle).Commit openWorld).2.1).1 = none ∧
    ((Tx.mk txCtx failHandle).Rollback ((Tx.mk txCtx okHandle).Commit openWorld).2.1).2.1.calls =
      ((Tx.mk txCtx okHandle).Commit openWorld).2.1.calls ∧
    ((Tx.mk txCtx failHandle).Rollback
      ((Tx.mk txCtx okHandle).Commit openWorld).2.1).2.1.conn.tx = none :=
  ⟨rfl, rfl, rollback_noop_on_cleared (Tx.mk txCtx failHandle)
    ((Tx.mk txCtx okHandle).Commit openWorld).2.1 rfl rfl⟩

/-- C4: on a connection that is open, whose slot is set, whose native rollback
succeeds and which stays open, two calls of `Rollback` in a row on the same
transaction both return `nil`, and the native `Rollback` is called once in
total, by the first call, with the stored context as the start hook left it. -/
theorem rollback_twice_one_native_call (t : Tx) (w : World)
    (hopen : w.conn.isClosed = false) (hset : w.conn.tx ≠ none)
    (hok : (t.tx.behave w.calls (NativeCall.rollback (t.rollbackCtx w))).err = none)
    (hstay : (t.tx.behave w.calls (NativeCall.rollback (t.rollbackCtx w))).closes = false) :
    (t.Rollback w).1 = none ∧
    (t.Rollback w).2.1.calls = w.calls ++ [NativeCall.rollback (t.rollbackCtx w)] ∧
    ((t.Rollback w).2.2.Rollback (t.Rollback w).2.1).1 = none ∧
    ((t.Rollback w).2.2.Rollback (t.Rollback w).2.1).2.1.calls =
      w.calls ++ [NativeCall.rollback (t.rollbackCtx w)] := by
  have hc : w.conn.closed = false := hopen
  have h1 : t.Rollback w =
      (none, (((w.emit (TraceEvent.rollbackStart t.ctx t.ID)).invoke t.tx
        (NativeCall.rollback (t.rollbackCtx w))).2.clearTx).emit (TraceEvent.rollbackDone none),
        { t with ctx := t.rollbackCtx w }) := by
    simp [Tx.Rollback, hopen, hset, hok]
  rw [h1]
  simp [Tx.Rollback, Conn.isClosed, hc, hstay]

theorem rollback_twice_one_native_call_witness :
    ((Tx.mk txCtx okHandle).Rollback openWorld).1 = none ∧
    ((Tx.mk txCtx okHandle).Rollback openWorld).2.1.calls =
      openWorld.calls ++ [NativeCall.rollback ((Tx.mk txCtx okHandle).rollbackCtx openWorld)] ∧
    (((Tx.mk txCtx okHandle).Rollback openWorld).2.2.Rollback
      ((Tx.mk txCtx okHandle).Rollback openWorld).2.1).1 = none ∧
    (((Tx.mk txCtx okHandle).Rollback openWorld).2.2.Rollback
      ((Tx.mk txCtx okHandle).Rollback openWorld).2.1).2.1.calls =
      openWorld.calls ++ [NativeCall.rollback ((Tx.mk txCtx okHandle).rollbackCtx openWorld)] :=
  rollback_twice_one_native_call (Tx.mk txCtx okHandle) openWorld rfl (by decide) rfl rfl

/-- C5: `Commit` returns `nil` exactly when the connection is open at entry and
the native `CommitTx`, called with the stored context `tx.ctx` (as the start
hook left it, which is the context the transaction stores afterwards), returns
no error.  When the connection is open at entry and `CommitTx` fails with `e`,
`Commit` returns `conn.checkClosed` of `e` with a stack trace: `errClosedConn`
if the connection was closed during the call, the annotated native error
otherwise, and never `nil`. -/
theorem commit_result (t : Tx) (w : World) :
    ((t.Commit w).1 = none ↔
      (w.conn.isClosed = false ∧
        (t.tx.behave w.calls (NativeCall.commitTx (t.commitCtx w))).err = none)) ∧
    (w.conn.isClosed = false →
      (t.Commit w).2.1.calls = w.calls ++ [NativeCall.commitTx (t.Commit w).2.2.ctx]) ∧
    ((t.Commit w).2.2.ctx = t.commitCtx w) ∧
    (w.conn.trace.onTxCommit w.events t.ctx t.ID = none → t.commitCtx w = t.ctx) ∧
    (∀ e, w.conn.isClosed = false →
      (t.tx.behave w.calls (NativeCall.commitTx (t.commitCtx w))).err = some e →
      (t.Commit w).1 = (t.Commit w).2.1.conn.checkClosed (WithStackTrace e) ∧
      (t.Commit w).1 =
        (if (t.tx.behave w.calls (NativeCall.commitTx (t.commitCtx w))).closes
          then some Error.closedConn else some (Error.stackTrace e)) ∧
      (t.Commit w).1 ≠ none) := by
  refine ⟨?_, ?_, (commit_stored_ctx t w).1, commitCtx_of_none t w, ?_⟩
  · by_cases hc : w.conn.isClosed = true
    · simp [Tx.Commit, hc]
    · have hc2 : w.conn.isClosed = false := by simpa using hc
      have hc3 : w.conn.closed = false := hc2
      cases hb : (t.tx.behave w.calls (NativeCall.commitTx (t.commitCtx w))).err with
      | none => simp [Tx.Commit, hc2, hb]
      | some e =>
        by_cases hcl :
            (t.tx.behave w.calls (NativeCall.commitTx (t.commitCtx w))).closes = true <;>
          simp [Tx.Commit, hc2, hc3, hb, Conn.checkClosed, Conn.isClosed, hcl]
  · intro hc
    simp [Tx.Commit, hc]
  · intro e hc hb
    have hc3 : w.conn.closed = false := hc
    by_cases hcl :
        (t.tx.behave w.calls (NativeCall.commitTx (t.commitCtx w))).closes = true <;>
      simp [Tx.Commit, hc, hb, Conn.checkClosed, Conn.isClosed, hcl, hc3, WithStackTrace]

theorem commit_result_witness :
    (((Tx.mk txCtx okHandle).Commit openWorld).1 = none ↔
      (openWorld.conn.isClosed = false ∧
        (okHandle.behave openWorld.calls
          (NativeCall.commitTx ((Tx.mk txCtx okHandle).commitCtx openWorld))).err = none)) ∧
    ((Tx.mk txCtx okHandle).Commit openWorld).2.1.calls =
      openWorld.calls ++ [NativeCall.commitTx ((Tx.mk txCtx okHandle).Commit openWorld).2.2.ctx] ∧
    (Tx.mk txCtx okHandle).commitCtx openWorld = txCtx ∧
    ((Tx.mk txCtx failHandle).Commit openWorld).1 = some (Error.stackTrace (Error.native 7)) ∧
    ((Tx.mk txCtx closingHandle).Commit openWorld).1 = some Error.closedConn :=
  ⟨(commit_result (Tx.mk txCtx okHandle) openWorld).1,
   (commit_result (Tx.mk txCtx okHandle) openWorld).2.1 rfl,
   (commit_result (Tx.mk txCtx okHandle) openWorld).2.2.2.1 rfl,
   ((commit_result (Tx.mk txCtx failHandle) openWorld).2.2.2.2 (Error.native 7) rfl rfl).2.1,
   ((commit_result (Tx.mk txCtx closingHandle) openWorld).2.2.2.2 (Error.native 7) rfl rfl).2.1⟩

/-- C6: the claim asks `ExecContext` to return a non-nil error when the native
`Execute` returns without a transport error and the result carries an error, as
`QueryContext` does.  At this input `QueryContext` returns nil rows and the
result error with a stack trace, while `ExecContext` drops the native result and
returns `nopResult` with a nil error. -/
theorem exec_drops_result_error :
    (resErrHandle.behave openWorld.calls
      (NativeCall.execute callCtx
        (sampleHelpers.queryWithDeclares sampleQuery (sampleHelpers.toQueryParams sampleArgs))
        (sampleHelpers.toQueryParams sampleArgs) (sampleHelpers.dataQueryOptions callCtx))).err
      = none ∧
    (resErrHandle.behave openWorld.calls
      (NativeCall.execute callCtx
        (sampleHelpers.queryWithDeclares sampleQuery (sampleHelpers.toQueryParams sampleArgs))
        (sampleHelpers.toQueryParams sampleArgs) (sampleHelpers.dataQueryOptions callCtx))).res.err
      = some (Error.native 9) ∧
    (Tx.QueryContext sampleHelpers (Tx.mk txCtx resErrHandle) callCtx sampleQuery sampleArgs
      openWorld).1 = none ∧
    (Tx.QueryContext sampleHelpers (Tx.mk txCtx resErrHandle) callCtx sampleQuery sampleArgs
      openWorld).2.1 = some (Error.stackTrace (Error.native 9)) ∧
    (Tx.ExecContext sampleHelpers (Tx.mk txCtx resErrHandle) callCtx sampleQuery sampleArgs
      openWorld).1 = some NopResult.mk ∧
    (Tx.ExecContext sampleHelpers (Tx.mk txCtx resErrHandle) callCtx sampleQuery sampleArgs
      openWorld).2.1 = none :=
  ⟨rfl, rfl, rfl, rfl, rfl, rfl⟩

/-- C7: `QueryContext` returns non-nil rows with a nil error exactly when the
native `Execute` returns no transport error and the `Err()` of the result it
returns is `nil`; the rows then hold that very result; in every other case the
rows are `nil` and the error is not `nil`. -/
theorem query_rows_iff (hp : Helpers) (t : Tx) (ctx : Context) (query : String)
    (args : List NamedValue) (w : World) :
    (((t.QueryContext hp ctx query args w).1 ≠ none ∧
        (t.QueryContext hp ctx query args w).2.1 = none) ↔
      ((t.tx.behave w.calls (NativeCall.execute (t.queryCtx hp ctx query w)
          (hp.queryWithDeclares query (hp.toQueryParams args)) (hp.toQueryParams args)
          (hp.dataQueryOptions (t.queryCtx hp ctx query w)))).err = none ∧
       (t.tx.behave w.calls (NativeCall.execute (t.queryCtx hp ctx query w)
          (hp.queryWithDeclares query (hp.toQueryParams args)) (hp.toQueryParams args)
          (hp.dataQueryOptions (t.queryCtx hp ctx query w)))).res.err = none)) ∧
    (((t.QueryContext hp ctx query args w).1 ≠ none ∧
        (t.QueryContext hp ctx query args w).2.1 = none) →
      (t.QueryContext hp ctx query args w).1 =
        some (Rows.mk (t.tx.behave w.calls (NativeCall.execute (t.queryCtx hp ctx query w)
          (hp.queryWithDeclares query (hp.toQueryParams args)) (hp.toQueryParams args)
          (hp.dataQueryOptions (t.queryCtx hp ctx query w)))).res)) ∧
    (¬ ((t.QueryContext hp ctx query args w).1 ≠ none ∧
        (t.QueryContext hp ctx query args w).2.1 = none) →
      (t.QueryContext hp ctx query args w).1 = none ∧
      (t.QueryContext hp ctx query args w).2.1 ≠ none) := by
  unfold Tx.QueryContext
  simp only [invoke_out, emit_calls]
  cases h1 : (t.tx.behave w.calls (NativeCall.execute (t.queryCtx hp ctx query w)
          (hp.queryWithDeclares query (hp.toQueryParams args)) (hp.toQueryParams args)
          (hp.dataQueryOptions (t.queryCtx hp ctx query w)))).err with
  | some e =>
    by_cases hcl : ((w.emit (TraceEvent.queryStart ctx t.ctx t.ID query
        (hp.isIdempotent ctx))).invoke t.tx (NativeCall.execute (t.queryCtx hp ctx query w)
          (hp.queryWithDeclares query (hp.toQueryParams args)) (hp.toQueryParams args)
          (hp.dataQueryOptions (t.queryCtx hp ctx query w)))).2.conn.isClosed = true <;>
      simp [Conn.checkClosed, hcl]
  | none =>
    cases h2 : (t.tx.behave w.calls (NativeCall.execute (t.queryCtx hp ctx query w)
          (hp.queryWithDeclares query (hp.toQueryParams args)) (hp.toQueryParams args)
          (hp.dataQueryOptions (t.queryCtx hp ctx query w)))).res.err with
    | some e =>
      by_cases hcl : ((w.emit (TraceEvent.queryStart ctx t.ctx t.ID query
          (hp.isIdempotent ctx))).invoke t.tx (NativeCall.execute (t.queryCtx hp ctx query w)
          (hp.queryWithDeclares query (hp.toQueryParams args)) (hp.toQueryParams args)
          (hp.dataQueryOptions (t.queryCtx hp ctx query w)))).2.conn.isClosed = true <;>
        simp [Conn.checkClosed, hcl]
    | none => simp

theorem query_rows_iff_witness :
    (Tx.QueryContext sampleHelpers (Tx.mk txCtx okHandle) callCtx sampleQuery sampleArgs
      openWorld).1 = some (Rows.mk (Result.mk 0 none)) ∧
    ((Tx.QueryContext sampleHelpers (Tx.mk txCtx resErrHandle) callCtx sampleQuery sampleArgs
      openWorld).1 = none ∧
     (Tx.QueryContext sampleHelpers (Tx.mk txCtx resErrHandle) callCtx sampleQuery sampleArgs
      openWorld).2.1 ≠ none) :=
  ⟨(query_rows_iff sampleHelpers (Tx.mk txCtx okHandle) callCtx sampleQuery sampleArgs
      openWorld).2.1 ⟨by simp [Tx.QueryContext, okHandle], rfl⟩,
   (query_rows_iff sampleHelpers (Tx.mk txCtx resErrHandle) callCtx sampleQuery sampleArgs
      openWorld).2.2 (fun h => h.1 rfl)⟩

/-- C9: when the native `Execute` returns a transport error `e`, `QueryContext`
and `ExecContext` return nil rows and a nil result; the error is `errClosedConn`
if the connection is closed when the error is classified (closed at entry or
closed during the call), and `e` with a stack trace if it is still open. -/
theorem transport_error_reclassified (hp : Helpers) (t : Tx) (ctx : Context)
    (query : String) (args : List NamedValue) (w : World) (e : Error) :
    ((t.tx.behave w.calls (NativeCall.execute (t.queryCtx hp ctx query w)
          (hp.queryWithDeclares query (hp.toQueryParams args)) (hp.toQueryParams args)
          (hp.dataQueryOptions (t.queryCtx hp ctx query w)))).err = some e →
      (t.QueryContext hp ctx query args w).1 = none ∧
      (t.QueryContext hp ctx query args w).2.1 =
        (if (w.conn.isClosed || (t.tx.behave w.calls (NativeCall.execute (t.queryCtx hp ctx query w)
          (hp.queryWithDeclares query (hp.toQueryParams args)) (hp.toQueryParams args)
          (hp.dataQueryOptions (t.queryCtx hp ctx query w)))).closes)
          then some Error.closedConn else some (Error.stackTrace e)) ∧
      (t.QueryContext hp ctx query args w).2.2.conn.isClosed =
        (w.conn.isClosed || (t.tx.behave w.calls (NativeCall.execute (t.queryCtx hp ctx query w)
          (hp.queryWithDeclares query (hp.toQueryParams args)) (hp.toQueryParams args)
          (hp.dataQueryOptions (t.queryCtx hp ctx query w)))).closes)) ∧
    ((t.tx.behave w.calls (NativeCall.execute (t.execCtx hp ctx query w)
          (hp.queryWithDeclares query (hp.toQueryParams args)) (hp.toQueryParams args)
          (hp.dataQueryOptions (t.execCtx hp ctx query w)))).err = some e →
      (t.ExecContext hp ctx query args w).1 = none ∧
      (t.ExecContext hp ctx query args w).2.1 =
        (if (w.conn.isClosed || (t.tx.behave w.calls (NativeCall.execute (t.execCtx hp ctx query w)
          (hp.queryWithDeclares query (hp.toQueryParams args)) (hp.toQueryParams args)
          (hp.dataQueryOptions (t.execCtx hp ctx query w)))).closes)
          then some Error.closedConn else some (Error.stackTrace e)) ∧
      (t.ExecContext hp ctx query args w).2.2.conn.isClosed =
        (w.conn.isClosed || (t.tx.behave w.calls (NativeCall.execute (t.execCtx hp ctx query w)
          (hp.queryWithDeclares query (hp.toQueryParams args)) (hp.toQueryParams args)
          (hp.dataQueryOptions (t.execCtx hp ctx query w)))).closes)) := by
  constructor
  · intro herr
    simp [Tx.QueryContext, herr, Conn.checkClosed, Conn.isClosed, WithStackTrace]
  · intro herr
    simp [Tx.ExecContext, herr, Conn.checkClosed, Conn.isClosed, WithStackTrace]

theorem transport_error_reclassified_witness :
    ((Tx.QueryContext sampleHelpers (Tx.mk txCtx closingHandle) callCtx sampleQuery sampleArgs
      openWorld).1 = none ∧
     (Tx.ExecContext sampleHelpers (Tx.mk txCtx closingHandle) callCtx sampleQuery sampleArgs
      openWorld).1 = none ∧
     (Tx.QueryContext sampleHelpers (Tx.mk txCtx closingHandle) callCtx sampleQuery sampleArgs
      openWorld).2.1 = some Error.closedConn ∧
     (Tx.ExecContext sampleHelpers (Tx.mk txCtx closingHandle) callCtx sampleQuery sampleArgs
      openWorld).2.1 = some Error.closedConn) ∧
    ((Tx.QueryContext sampleHelpers (Tx.mk txCtx failHandle) callCtx sampleQuery sampleArgs
      openWorld).2.1 = some (Error.stackTrace (Error.native 7)) ∧
     (Tx.ExecContext sampleHelpers (Tx.mk txCtx failHandle) callCtx sampleQuery sampleArgs
      openWorld).2.1 = some (Error.stackTrace (Error.native 7))) :=
  have h1 := transport_error_reclassified sampleHelpers (Tx.mk txCtx closingHandle) callCtx
    sampleQuery sampleArgs openWorld (Error.native 7)
  have h2 := transport_error_reclassified sampleHelpers (Tx.mk txCtx failHandle) callCtx
    sampleQuery sampleArgs openWorld (Error.native 7)
  ⟨⟨(h1.1 rfl).1, (h1.2 rfl).1, (h1.1 rfl).2.1, (h1.2 rfl).2.1⟩,
   ⟨(h2.1 rfl).2.1, (h2.2 rfl).2.1⟩⟩

/-- C10: `Commit` does not read the slot `conn.tx`.  On an open connection it
calls the native `CommitTx` once, and its whole outcome is the same whatever
the slot holds; a second `Commit` on the same transaction after a first one
that left the connection open calls `CommitTx` again, while a `Rollback` in
that place makes no native call. -/
theorem commit_ignores_tx_reference (t : Tx) (w : World) (hopen : w.conn.isClosed = false) :
    (t.Commit w).2.1.calls = w.calls ++ [NativeCall.commitTx (t.commitCtx w)] ∧
    (∀ p : Option Nat,
      t.Commit { w with conn := { w.conn with tx := p } } = t.Commit w) ∧
    ((t.Commit w).2.1.conn.isClosed = false →
      (t.Commit w).2.1.conn.tx = none ∧
      ((t.Commit w).2.2.Commit (t.Commit w).2.1).2.1.calls =
        w.calls ++ [NativeCall.commitTx (t.commitCtx w),
          NativeCall.commitTx ((t.Commit w).2.2.commitCtx (t.Commit w).2.1)] ∧
      ((t.Commit w).2.2.Rollback (t.Commit w).2.1).2.1.calls =
        w.calls ++ [NativeCall.commitTx (t.commitCtx w)]) := by
  have hc : w.conn.closed = false := hopen
  refine ⟨?_, ?_, ?_⟩
  · simp [Tx.Commit, hopen]
  · intro p
    simp [Tx.Commit, Tx.commitCtx, Conn.isClosed, hc, World.invoke, World.emit,
      World.clearTx, Conn.checkClosed]
  · intro h2
    have h3 : (t.Commit w).2.1.conn.closed = false := h2
    have h4 : (t.Commit w).2.1.conn.tx = none := by simp [Tx.Commit, hopen]
    have h5 : (t.Commit w).2.1.calls = w.calls ++ [NativeCall.commitTx (t.commitCtx w)] := by
      simp [Tx.Commit, hopen]
    refine ⟨h4, ?_, ?_⟩
    · have h6 : ((t.Commit w).2.2.Commit (t.Commit w).2.1).2.1.calls =
          (t.Commit w).2.1.calls ++
            [NativeCall.commitTx ((t.Commit w).2.2.commitCtx (t.Commit w).2.1)] := by
        generalize (t.Commit w).2.2 = t1
        generalize (t.Commit w).2.1 = w1 at h2 h3
        simp [Tx.Commit, h2]
      rw [h6, h5]
      simp
    · have h7 : ((t.Commit w).2.2.Rollback (t.Commit w).2.1).2.1.calls =
          (t.Commit w).2.1.calls := by
        generalize (t.Commit w).2.2 = t1
        generalize (t.Commit w).2.1 = w1 at h2 h3 h4
        simp [Tx.Rollback, h2, h4]
      rw [h7, h5]

theorem commit_ignores_tx_reference_witness :
    ((Tx.mk txCtx okHandle).Commit clearedWorld).2.1.calls = [NativeCall.commitTx txCtx] ∧
    ((Tx.mk txCtx okHandle).Commit openWorld).2.1.calls = [NativeCall.commitTx txCtx] ∧
    (((Tx.mk txCtx okHandle).Commit openWorld).2.2.Commit
      ((Tx.mk txCtx okHandle).Commit openWorld).2.1).2.1.calls =
      [NativeCall.commitTx txCtx, NativeCall.commitTx txCtx] ∧
    (((Tx.mk txCtx okHandle).Commit openWorld).2.2.Rollback
      ((Tx.mk txCtx okHandle).Commit openWorld).2.1).2.1.calls =
      [NativeCall.commitTx txCtx] :=
  ⟨(commit_ignores_tx_reference (Tx.mk txCtx okHandle) clearedWorld rfl).1,
   (commit_ignores_tx_reference (Tx.mk txCtx okHandle) openWorld rfl).1,
   ((commit_ignores_tx_reference (Tx.mk txCtx okHandle) openWorld rfl).2.2 rfl).2.1,
   ((commit_ignores_tx_reference (Tx.mk txCtx okHandle) openWorld rfl).2.2 rfl).2.2⟩

end Xsql
